import Mathlib

/-!
Verification of the retrieval subsystem of the travel-ai-planner repository.

The Python sources (`rag_system.py`, `tools.py`, `config.py`) are shallowly
embedded below.  External effects are made explicit:

* the FAISS vector store is a record whose `similarity_search` field is an
  abstract function that may fail (`Except`), mirroring a Python call that
  may raise;
* the filesystem seen during construction is a `BuildEnv` record: whether the
  persisted-index path exists, the outcome of `FAISS.load_local`, whether the
  knowledge-base directory exists, its listing together with each file's read
  outcome, and the outcome of `save_local`;
* Python exceptions crossing a boundary are `Except` / `PyError` values;
  a `try/except` that converts an exception into a string is a `match`.
-/

namespace TravelPlanner

/-- `RAG_CONFIG` from `config.py`. -/
structure RagConfig where
  knowledge_base_path : String
  chunk_size : Nat
  chunk_overlap : Nat
  top_k : Nat
deriving Repr, DecidableEq

def RAG_CONFIG : RagConfig :=
  { knowledge_base_path := "knowledge_base/"
  , chunk_size := 500
  , chunk_overlap := 50
  , top_k := 3 }

/-- A langchain `Document`: page content plus the two metadata keys the loader
sets (`source`, `destination`).  They are `Option`-valued because `search`
reads the destination with `metadata.get("destination", default)`. -/
structure Document where
  page_content : String
  metaSource : Option String
  metaDestination : Option String
deriving Repr, DecidableEq

/-- The FAISS vector store, abstracted to its query interface:
`similarity_search(query, k)` either returns a list of documents or raises
(modelled by `Except.error` carrying the exception text). -/
structure VectorStore where
  similarity_search : String → Nat → Except String (List Document)

/-- The state of a constructed `RAGSystem` relevant at query time:
`self.vector_store` (possibly still `None`) and `self.top_k`. -/
structure RAGSystem where
  vector_store : Option VectorStore
  top_k : Nat

/-- Python `x or d` for an optional integer `x`: both `None` and `0` are
falsy, so they are replaced by `d` (`k = k or self.top_k`). -/
def pyOrNat : Option Nat → Nat → Nat
  | none, d => d
  | some 0, d => d
  | some (n + 1), _ => n + 1

def notInitializedMsg : String := "⚠️Sistema RAG no inicializado correctamente"

def noInfoMsg : String :=
  "No se encontró información relevante en la base de conocimiento."

def ragErrorMsg (e : String) : String := "⚠️Error en búsqueda RAG: " ++ e

def contextHeader : String :=
  "**Información relevante de la base de conocimiento:**\n\n"

/-- One formatted fragment inside `search`'s result loop:
`f"**[Fuente: {destination}]**\n{content}\n\n"` where `destination` is
`doc.metadata.get("destination", "Desconocido")` and `content` is
`doc.page_content.strip()`. -/
def formatEntry (doc : Document) : String :=
  "**[Fuente: " ++ doc.metaDestination.getD "Desconocido" ++ "]**\n"
    ++ doc.page_content.trim ++ "\n\n"

/-- The result loop of `search`: after each fragment except the last, the
separator `"---\n\n"` is appended (`if i < len(results)`). -/
def renderResults : List Document → String
  | [] => ""
  | [doc] => formatEntry doc
  | doc :: rest => formatEntry doc ++ "---\n\n" ++ renderResults rest

/-- `RAGSystem.search` (`rag_system.py` lines 162–201).  `k : Option Nat`
models the `k: int = None` parameter. -/
def search (rag : RAGSystem) (query : String) (k : Option Nat) : String :=
  match rag.vector_store with
  | none => notInitializedMsg
  | some vs =>
    let k1 := pyOrNat k rag.top_k
    match vs.similarity_search query k1 with
    | Except.error e => ragErrorMsg e
    | Except.ok results =>
      if results.isEmpty then noInfoMsg
      else contextHeader ++ renderResults results

/-- The query string synthesized by `search_by_destination` (line 214). -/
def destQuery (destination : String) : String :=
  "información completa sobre "
    ++ (destination ++ " atracciones gastronomía transporte presupuesto")

/-- `RAGSystem.search_by_destination` (lines 204–215). -/
def search_by_destination (rag : RAGSystem) (destination : String) : String :=
  search rag (destQuery destination) (some 5)

/-- The characters of the literal `'.txt'`. -/
def txtPat : List Char := ['.', 't', 'x', 't']

/-- Python `str.replace('.txt', '')` specialized to the fixed pattern of the
source: removes every non-overlapping occurrence of `.txt`, scanning left to
right. -/
def replaceDotTxt : List Char → List Char
  | [] => []
  | c :: rest =>
    if txtPat.isPrefixOf (c :: rest) then replaceDotTxt (rest.drop 3)
    else c :: replaceDotTxt rest
termination_by l => l.length
decreasing_by
  · simp [List.length_drop]; omega
  · simp

/-- Whether `.txt` occurs anywhere in the character list. -/
def hasDotTxt : List Char → Bool
  | [] => false
  | c :: rest => txtPat.isPrefixOf (c :: rest) || hasDotTxt rest

/-- Python `str.title()` (ASCII fragment): a letter is uppercased when the
previous character is not a letter and lowercased otherwise; non-letters pass
through.  The boolean argument records whether the previous character was a
letter. -/
def pyTitleAux : Bool → List Char → List Char
  | _, [] => []
  | prevAlpha, c :: rest =>
    if c.isAlpha then
      (if prevAlpha then c.toLower else c.toUpper) :: pyTitleAux true rest
    else c :: pyTitleAux false rest

def pyTitle (s : String) : String := String.mk (pyTitleAux false s.data)

/-- The destination metadata computed by the loader (line 70):
`filename.replace('.txt', '').title()`. -/
def destinationOf (filename : String) : String :=
  pyTitle (String.mk (replaceDotTxt filename.data))

/-- The exceptions `load_or_create_vector_store` can raise:
`FileNotFoundError` (line 54) and `ValueError` (line 148). -/
inductive PyError where
  | fileNotFound (msg : String)
  | valueError (msg : String)
deriving Repr, DecidableEq

/-- The external world observed during construction:
whether `data/faiss_index` exists, the outcome of `FAISS.load_local`, whether
the knowledge-base directory exists, its listing (filename paired with the
outcome of opening and reading it), the external text splitter
(`RecursiveCharacterTextSplitter.split_documents`), `FAISS.from_documents`,
and the outcome of `save_local`. -/
structure BuildEnv where
  indexPathExists : Bool
  loadResult : Except String VectorStore
  kbExists : Bool
  listing : List (String × Except String String)
  splitDocs : List Document → List Document
  fromDocuments : List Document → VectorStore
  saveResult : Except String Unit

/-- The loop body of `load_documents` (lines 57–77) for one directory entry:
files not ending in `.txt` are skipped by the filter; an eligible file whose
read raises is logged and skipped (`except` branch); an eligible readable
file becomes a `Document` with `source` and `destination` metadata. -/
def docOfEntry (entry : String × Except String String) : Option Document :=
  if txtPat.isSuffixOf entry.1.data then
    match entry.2 with
    | Except.ok content =>
      some { page_content := content
           , metaSource := some entry.1
           , metaDestination := some (destinationOf entry.1) }
    | Except.error _ => none
  else none

/-- `RAGSystem.load_documents` (lines 43–80): raises `FileNotFoundError` when
the knowledge-base directory is missing, otherwise collects a `Document` for
every eligible readable file, in listing order. -/
def load_documents (env : BuildEnv) : Except PyError (List Document) :=
  if env.kbExists then
    Except.ok (env.listing.filterMap docOfEntry)
  else
    Except.error (PyError.fileNotFound
      ("No se encuentra la carpeta: " ++ RAG_CONFIG.knowledge_base_path))

def emptyCorpusMsg : String :=
  "No se encontraron documentos en la base de conocimiento"

/-- The rebuild path of `load_or_create_vector_store` (lines 145–159):
load documents, fail with `ValueError` on an empty corpus, split, build the
store, then save it; the `except` around `save_local` only logs, so both save
outcomes return the freshly built store. -/
def rebuildVectorStore (env : BuildEnv) : Except PyError VectorStore :=
  match load_documents env with
  | Except.error e => Except.error e
  | Except.ok documents =>
    if documents.isEmpty then
      Except.error (PyError.valueError emptyCorpusMsg)
    else
      let chunks := env.splitDocs documents
      let vs := env.fromDocuments chunks
      match env.saveResult with
      | Except.ok _ => Except.ok vs
      | Except.error _ => Except.ok vs

/-- `RAGSystem.load_or_create_vector_store` (lines 123–159): when the
persisted index path exists, try `FAISS.load_local` and return the loaded
store on success; on a load exception, or when the path does not exist, fall
back to the full rebuild. -/
def load_or_create_vector_store (env : BuildEnv) : Except PyError VectorStore :=
  if env.indexPathExists then
    match env.loadResult with
    | Except.ok vs => Except.ok vs
    | Except.error _ => rebuildVectorStore env
  else rebuildVectorStore env

/-- The constructor arguments of `RecursiveCharacterTextSplitter` in
`split_documents` (lines 93–98). -/
structure SplitterConfig where
  chunk_size : Nat
  chunk_overlap : Nat
  separators : List String
deriving Repr, DecidableEq

/-- The splitter built by `RAGSystem.split_documents` (lines 93–98). -/
def split_documents_splitter : SplitterConfig :=
  { chunk_size := RAG_CONFIG.chunk_size
  , chunk_overlap := RAG_CONFIG.chunk_overlap
  , separators := ["\n\n", "\n", ".", "!", "?", ",", " ", ""] }

/-- Python `str.lower()` (ASCII fragment). -/
def pyLower (s : String) : String := String.mk (s.data.map Char.toLower)

/-- Python slicing `s[:n]`: the first `n` code points of `s` (all of `s` when
it is shorter). -/
def pyTake (s : String) (n : Nat) : String := String.mk (s.data.take n)

/-- `RAGSystem.get_destination_summary` (lines 218–242).  `fs` is the
knowledge-base directory: `fs name = none` when the file does not exist,
`some (Except.error e)` when opening or reading it raises, and
`some (Except.ok content)` when reading succeeds. -/
def get_destination_summary (rag : RAGSystem)
    (fs : String → Option (Except String String)) (destination : String) :
    String :=
  let filename := pyLower destination ++ ".txt"
  match fs filename with
  | some (Except.ok content) =>
    if content.length > 1000 then pyTake content 1000 ++ "..." else content
  | some (Except.error e) =>
    "Error leyendo información de " ++ destination ++ ": " ++ e
  | none => search_by_destination rag destination

/-- The JSON fields `get_weather_info` extracts, already rendered as the text
their Python f-string interpolation produces. -/
structure WeatherData where
  temp : String
  feels_like : String
  humidity : String
  description : String
  wind_speed : String
deriving Repr, DecidableEq

/-- The outcome of the body of the `try` block in `get_weather_info`
(`tools.py` lines 21–54): success with extracted data, a
`requests.exceptions.RequestException`, or any other exception. -/
inductive WeatherOutcome where
  | success (d : WeatherData)
  | requestError (e : String)
  | otherError (e : String)
deriving Repr, DecidableEq

/-- Python `str.capitalize()` (ASCII fragment): first character uppercased,
the rest lowercased. -/
def pyCapitalize (s : String) : String :=
  match s.data with
  | [] => ""
  | c :: rest => String.mk (c.toUpper :: rest.map Char.toLower)

/-- The success message of `get_weather_info` (lines 45–52). -/
def formatWeather (city : String) (d : WeatherData) : String :=
  "🌤️ **Clima actual en " ++ city ++ ":**\n- Temperatura: " ++ d.temp
    ++ "°C (Sensación térmica: " ++ d.feels_like ++ "°C)\n- Condiciones: "
    ++ pyCapitalize d.description ++ "\n- Humedad: " ++ d.humidity
    ++ "%\n- Viento: " ++ d.wind_speed
    ++ " m/s\n\nEsta información es actual y debe considerarse al planificar actividades al aire libre.\n"

/-- The fallback message for a `RequestException` (lines 56–60); the caught
exception is not interpolated into it. -/
def weatherFallbackMsg (city : String) : String :=
  "⚠️ No se pudo obtener información del clima actual para " ++ city
    ++ ".\nSe recomienda verificar el clima antes del viaje en sitios como weather.com o accuweather.com.\n"

def weatherOtherErrorMsg (e : String) : String :=
  "⚠️ Error al obtener clima: " ++ e

/-- `get_weather_info` (`tools.py` lines 10–62). -/
def get_weather_info (city : String) (outcome : WeatherOutcome) : String :=
  match outcome with
  | WeatherOutcome.success d => formatWeather city d
  | WeatherOutcome.requestError _ => weatherFallbackMsg city
  | WeatherOutcome.otherError e => weatherOtherErrorMsg e

/-- The destination identifier as the spec words it: the `.txt` extension
(the final four characters of an eligible filename) is removed and the
remainder is title-cased.  Stated only for comparison with `destinationOf`,
which is the computation the loader actually performs. -/
def specDestinationOf (filename : String) : String :=
  pyTitle (String.mk (filename.data.take (filename.data.length - 4)))

/-- Whether a read outcome succeeded (the loop body's `try` did not hit its
`except` branch). -/
def readOk : Except String String → Bool
  | Except.ok _ => true
  | Except.error _ => false

/-! Concrete fixtures used by witness theorems. -/

/-- A store whose similarity search always returns no documents. -/
def vsEmpty : VectorStore := ⟨fun _ _ => Except.ok []⟩

/-- A store whose similarity search always raises. -/
def vsBoom : VectorStore := ⟨fun _ _ => Except.error "boom"⟩

/-- A cold-start environment: no persisted index, one readable eligible file,
and a failing save. -/
def envRebuild : BuildEnv :=
  { indexPathExists := false
  , loadResult := Except.error "no index"
  , kbExists := true
  , listing := [("roma.txt", Except.ok "Roma es la capital de Italia.")]
  , splitDocs := fun docs => docs
  , fromDocuments := fun _ => vsEmpty
  , saveResult := Except.error "disk full" }

/-- An environment whose knowledge-base directory exists but holds no
eligible (`.txt`) file, and no persisted index. -/
def envNoEligible : BuildEnv :=
  { indexPathExists := false
  , loadResult := Except.error "no index"
  , kbExists := true
  , listing := [("readme.md", Except.ok "hola")]
  , splitDocs := fun docs => docs
  , fromDocuments := fun _ => vsEmpty
  , saveResult := Except.ok () }

/-- A directory with three readable eligible files and one eligible file
whose read raises. -/
def listingPartial : List (String × Except String String) :=
  [ ("roma.txt", Except.ok "Roma")
  , ("madrid.txt", Except.ok "Madrid")
  , ("broken.txt", Except.error "UnicodeDecodeError")
  , ("lisboa.txt", Except.ok "Lisboa") ]

/-- An environment over `listingPartial`. -/
def envPartial : BuildEnv :=
  { indexPathExists := false
  , loadResult := Except.error "no index"
  , kbExists := true
  , listing := listingPartial
  , splitDocs := fun docs => docs
  , fromDocuments := fun _ => vsEmpty
  , saveResult := Except.ok () }

/-- A knowledge-base directory for summary lookups: `roma.txt` is readable,
`paris.txt` exists but reading it raises, anything else is absent. -/
def fsSummary (name : String) : Option (Except String String) :=
  if name = "roma.txt" then some (Except.ok "Roma es la capital de Italia.")
  else if name = "paris.txt" then some (Except.error "PermissionError")
  else none

/-! ## Theorems -/

/-- C1: for every query and every `k`, `search` returns text and never raises
past its boundary: an unset vector store yields the "not initialized"
sentinel, an exception inside the similarity search yields a textual error
message, an empty result list yields the "no information found" sentinel, and
a non-empty result list yields the formatted context. -/
theorem search_error_handling (rag : RAGSystem) (query : String) (k : Option Nat) :
    (rag.vector_store = none → search rag query k = notInitializedMsg) ∧
    (∀ vs e, rag.vector_store = some vs →
      vs.similarity_search query (pyOrNat k rag.top_k) = Except.error e →
      search rag query k = ragErrorMsg e) ∧
    (∀ vs, rag.vector_store = some vs →
      vs.similarity_search query (pyOrNat k rag.top_k) = Except.ok [] →
      search rag query k = noInfoMsg) ∧
    (∀ vs results, rag.vector_store = some vs →
      vs.similarity_search query (pyOrNat k rag.top_k) = Except.ok results →
      results ≠ [] →
      search rag query k = contextHeader ++ renderResults results) := by
  refine ⟨fun h => ?_, fun vs e hvs hs => ?_, fun vs hvs hs => ?_,
    fun vs results hvs hs hne => ?_⟩
  · simp [search, h]
  · simp [search, hvs, hs]
  · simp [search, hvs, hs, noInfoMsg]
  · simp [search, hvs, hs, hne]

/-- Witness for `search_error_handling`, exercising the unset-store, raised,
and empty-result branches on concrete inputs. -/
theorem search_error_handling_witness :
    search ⟨none, 3⟩ "q" none = notInitializedMsg ∧
    search ⟨some vsBoom, 3⟩ "q" none = ragErrorMsg "boom" ∧
    search ⟨some vsEmpty, 3⟩ "q" none = noInfoMsg :=
  ⟨(search_error_handling ⟨none, 3⟩ "q" none).1 rfl,
   (search_error_handling ⟨some vsBoom, 3⟩ "q" none).2.1 vsBoom "boom" rfl rfl,
   (search_error_handling ⟨some vsEmpty, 3⟩ "q" none).2.2.1 vsEmpty rfl rfl⟩

/-- C9: a falsy `k` (`None` or `0`) is replaced by the configured default
`top_k = 3` before the similarity search, so `search(q, 0)` and a bare
`search(q)` behave identically to `search(q, 3)`. -/
theorem search_falsy_k_default (vs : Option VectorStore) (query : String) :
    search ⟨vs, RAG_CONFIG.top_k⟩ query (some 0)
      = search ⟨vs, RAG_CONFIG.top_k⟩ query (some 3) ∧
    search ⟨vs, RAG_CONFIG.top_k⟩ query none
      = search ⟨vs, RAG_CONFIG.top_k⟩ query (some 3) ∧
    pyOrNat (some 0) RAG_CONFIG.top_k = 3 ∧
    pyOrNat none RAG_CONFIG.top_k = 3 :=
  ⟨rfl, rfl, rfl, rfl⟩

/-- C5: `search_by_destination` delegates to `search` with `k = 5`, its
synthesized query contains the destination name and each fixed topical
keyword, and `5` is strictly larger than the configured default `top_k`. -/
theorem search_by_destination_widening (rag : RAGSystem) (d : String) :
    search_by_destination rag d = search rag (destQuery d) (some 5) ∧
    (d.data <:+: (destQuery d).data) ∧
    ("atracciones".data <:+: (destQuery d).data) ∧
    ("gastronomía".data <:+: (destQuery d).data) ∧
    ("transporte".data <:+: (destQuery d).data) ∧
    ("presupuesto".data <:+: (destQuery d).data) ∧
    RAG_CONFIG.top_k < 5 := by
  have hdata : (destQuery d).data
      = "información completa sobre ".data
        ++ (d.data ++ " atracciones gastronomía transporte presupuesto".data) := by
    simp [destQuery]
  refine ⟨rfl, ?_, ?_, ?_, ?_, ?_, by decide⟩
  · exact ⟨"información completa sobre ".data,
      " atracciones gastronomía transporte presupuesto".data, by rw [hdata]; simp⟩
  · refine ⟨"información completa sobre ".data ++ d.data ++ " ".data,
      " gastronomía transporte presupuesto".data, ?_⟩
    rw [hdata]; simp
  · refine ⟨"información completa sobre ".data ++ d.data ++ " atracciones ".data,
      " transporte presupuesto".data, ?_⟩
    rw [hdata]; simp
  · refine ⟨"información completa sobre ".data ++ d.data
        ++ " atracciones gastronomía ".data,
      " presupuesto".data, ?_⟩
    rw [hdata]; simp
  · refine ⟨"información completa sobre ".data ++ d.data
        ++ " atracciones gastronomía transporte ".data,
      "".data, ?_⟩
    rw [hdata]; simp

/-- C8: `get_weather_info` always returns text: the formatted description on
success, the generic fallback on a request exception, and a textual error
message on any other exception — never an exception to its caller. -/
theorem weather_always_text (city : String) (outcome : WeatherOutcome) :
    (∀ d, outcome = WeatherOutcome.success d →
      get_weather_info city outcome = formatWeather city d) ∧
    (∀ e, outcome = WeatherOutcome.requestError e →
      get_weather_info city outcome = weatherFallbackMsg city) ∧
    (∀ e, outcome = WeatherOutcome.otherError e →
      get_weather_info city outcome = weatherOtherErrorMsg e) := by
  refine ⟨fun d h => ?_, fun e h => ?_, fun e h => ?_⟩ <;>
    subst h <;> rfl

/-- Witness for `weather_always_text` at concrete outcomes. -/
theorem weather_always_text_witness :
    get_weather_info "Roma" (WeatherOutcome.requestError "timeout")
      = weatherFallbackMsg "Roma" ∧
    get_weather_info "Roma" (WeatherOutcome.otherError "KeyError")
      = weatherOtherErrorMsg "KeyError" :=
  ⟨(weather_always_text "Roma" (WeatherOutcome.requestError "timeout")).2.1
      "timeout" rfl,
   (weather_always_text "Roma" (WeatherOutcome.otherError "KeyError")).2.2
      "KeyError" rfl⟩

/-- Changing only the save outcome does not change the construction result:
the `except` around `save_local` merely logs. -/
lemma rebuildVectorStore_save_irrel (env : BuildEnv) (sr : Except String Unit) :
    rebuildVectorStore { env with saveResult := sr } = rebuildVectorStore env := by
  have h : load_documents { env with saveResult := sr } = load_documents env := rfl
  unfold rebuildVectorStore
  rw [h]
  cases load_documents env with
  | error e => rfl
  | ok docs =>
    by_cases hd : docs.isEmpty
    · simp [hd]
    · simp only [hd, Bool.false_eq_true, if_false]
      cases sr <;> cases henv : env.saveResult <;> simp [henv]

/-- C2: construction first tries the persisted index and returns it when the
load succeeds; on a missing path or a load exception it falls back to the
full rebuild (load documents, split, build), and the rebuild returns the
freshly built in-memory store no matter the save outcome. -/
theorem load_or_create_fallback (env : BuildEnv) :
    (∀ vs, env.indexPathExists = true → env.loadResult = Except.ok vs →
      load_or_create_vector_store env = Except.ok vs) ∧
    ((env.indexPathExists = false ∨ ∃ e, env.loadResult = Except.error e) →
      load_or_create_vector_store env = rebuildVectorStore env) ∧
    (env.kbExists = true → env.listing.filterMap docOfEntry ≠ [] →
      rebuildVectorStore env = Except.ok
        (env.fromDocuments (env.splitDocs (env.listing.filterMap docOfEntry)))) ∧
    (∀ sr, rebuildVectorStore { env with saveResult := sr }
      = rebuildVectorStore env) := by
  refine ⟨fun vs hip hld => ?_, fun h => ?_, fun hkb hne => ?_,
    rebuildVectorStore_save_irrel env⟩
  · simp [load_or_create_vector_store, hip, hld]
  · rcases h with hip | ⟨e, he⟩
    · simp [load_or_create_vector_store, hip]
    · cases hip : env.indexPathExists <;>
        simp [load_or_create_vector_store, hip, he]
  · unfold rebuildVectorStore
    simp only [load_documents, hkb, if_true]
    simp only [List.isEmpty_iff, hne, if_false]
    cases env.saveResult <;> rfl

/-- Witness for `load_or_create_fallback`: in a cold-start environment with a
failing load and a failing save, construction still yields the freshly built
store. -/
theorem load_or_create_fallback_witness :
    load_or_create_vector_store envRebuild = Except.ok vsEmpty := by
  have h2 := (load_or_create_fallback envRebuild).2.1 (Or.inl rfl)
  have h3 := (load_or_create_fallback envRebuild).2.2.1 rfl
    (by simp only [envRebuild, List.filterMap_cons, docOfEntry]; decide)
  rw [h2, h3]
  rfl

/-- C3: when the knowledge-base directory exists but holds no eligible
(`.txt`) file, the loader returns an empty list without error, and cold-start
construction fails with the empty-corpus `ValueError`. -/
theorem empty_corpus_fatal (env : BuildEnv)
    (hkb : env.kbExists = true)
    (hip : env.indexPathExists = false)
    (hnone : ∀ e ∈ env.listing, txtPat.isSuffixOf e.1.data = false) :
    load_documents env = Except.ok [] ∧
    load_or_create_vector_store env
      = Except.error (PyError.valueError emptyCorpusMsg) := by
  have hnil : env.listing.filterMap docOfEntry = [] := by
    rw [List.filterMap_eq_nil_iff]
    intro e he
    simp [docOfEntry, hnone e he]
  refine ⟨by simp [load_documents, hkb, hnil], ?_⟩
  simp [load_or_create_vector_store, hip, rebuildVectorStore, load_documents,
    hkb, hnil]

/-- Witness for `empty_corpus_fatal` on a directory holding only
`readme.md`. -/
theorem empty_corpus_fatal_witness :
    load_documents envNoEligible = Except.ok [] ∧
    load_or_create_vector_store envNoEligible
      = Except.error (PyError.valueError emptyCorpusMsg) :=
  empty_corpus_fatal envNoEligible rfl rfl (by decide)

/-- Counting documents: the loader yields exactly one `Document` per eligible
readable file. -/
lemma filterMap_docOfEntry_length (l : List (String × Except String String)) :
    (l.filterMap docOfEntry).length
      = (l.filter fun e => txtPat.isSuffixOf e.1.data && readOk e.2).length := by
  induction l with
  | nil => rfl
  | cons e rest ih =>
    obtain ⟨name, r⟩ := e
    by_cases hs : txtPat.isSuffixOf name.data <;>
      cases r <;>
        simp [docOfEntry, readOk, hs, List.filterMap_cons, List.filter_cons, ih]

/-- C4: document loading is partial-failure tolerant: with the directory
present, the loader returns (without error) one `Document` for each eligible
readable file — unreadable files are skipped, and every readable eligible
file still contributes its `Document`. -/
theorem load_documents_partial_tolerance (env : BuildEnv)
    (hkb : env.kbExists = true) :
    load_documents env = Except.ok (env.listing.filterMap docOfEntry) ∧
    (env.listing.filterMap docOfEntry).length
      = (env.listing.filter fun e => txtPat.isSuffixOf e.1.data && readOk e.2).length ∧
    ∀ name content, (name, Except.ok content) ∈ env.listing →
      txtPat.isSuffixOf name.data = true →
      ({ page_content := content, metaSource := some name,
         metaDestination := some (destinationOf name) } : Document)
        ∈ env.listing.filterMap docOfEntry := by
  refine ⟨by simp [load_documents, hkb], filterMap_docOfEntry_length _, ?_⟩
  intro name content hmem hs
  exact List.mem_filterMap.mpr
    ⟨(name, Except.ok content), hmem, by simp [docOfEntry, hs]⟩

/-- Witness for `load_documents_partial_tolerance`: three readable files plus
one unreadable file yield exactly three `Document`s and no error. -/
theorem load_documents_partial_tolerance_witness :
    load_documents envPartial
      = Except.ok (listingPartial.filterMap docOfEntry) ∧
    (listingPartial.filterMap docOfEntry).length = 3 := by
  have h := load_documents_partial_tolerance envPartial rfl
  refine ⟨h.1, ?_⟩
  show (envPartial.listing.filterMap docOfEntry).length = 3
  rw [h.2.1]
  decide

/-- C6: the chunker is configured with exactly the prioritized separator
list, from largest linguistic boundary to the hard character cut, together
with the configured chunk size and overlap. -/
theorem splitter_separator_priority :
    split_documents_splitter.separators
      = ["\n\n", "\n", ".", "!", "?", ",", " ", ""] ∧
    split_documents_splitter.chunk_size = RAG_CONFIG.chunk_size ∧
    split_documents_splitter.chunk_overlap = RAG_CONFIG.chunk_overlap :=
  ⟨rfl, rfl, rfl⟩

/-- Appending `.txt` to a list that does not start with `.txt` cannot create
an occurrence of `.txt` at the front: the pattern cannot overlap itself
across the boundary. -/
lemma not_prefix_append_txt (c : Char) (rest : List Char)
    (h : txtPat.isPrefixOf (c :: rest) = false) :
    txtPat.isPrefixOf ((c :: rest) ++ txtPat) = false := by
  match rest with
  | [] => simp [txtPat, List.isPrefixOf]
  | [r1] => simp [txtPat, List.isPrefixOf]
  | [r1, r2] => simp [txtPat, List.isPrefixOf]
  | r1 :: r2 :: r3 :: tail =>
    simp [txtPat, List.isPrefixOf] at h ⊢
    tauto

/-- When a list contains no occurrence of `.txt`, appending one `.txt` and
removing all occurrences gives the list back. -/
lemma replaceDotTxt_append (l : List Char) (h : hasDotTxt l = false) :
    replaceDotTxt (l ++ txtPat) = l := by
  induction l with
  | nil =>
    show replaceDotTxt txtPat = []
    simp [replaceDotTxt, txtPat]
  | cons c rest ih =>
    simp only [hasDotTxt, Bool.or_eq_false_iff] at h
    obtain ⟨h1, h2⟩ := h
    rw [List.cons_append, replaceDotTxt]
    have hb : txtPat.isPrefixOf (c :: (rest ++ txtPat)) = false :=
      not_prefix_append_txt c rest h1
    rw [hb]
    simp only [Bool.false_eq_true, if_false]
    exact congrArg (c :: ·) (ih h2)

/-- Counterexample to C7 as stated: for the eligible filename
`paris.txt.txt`, the code removes every occurrence of `.txt` (yielding
`Paris`), while removing only the extension and title-casing the remainder
would yield `Paris.Txt`. -/
theorem destinationOf_counterexample :
    destinationOf "paris.txt.txt" = "Paris" ∧
    specDestinationOf "paris.txt.txt" = "Paris.Txt" ∧
    destinationOf "paris.txt.txt" ≠ specDestinationOf "paris.txt.txt" := by
  have h1 : replaceDotTxt "paris.txt.txt".data = "paris".data := by
    simp [replaceDotTxt, txtPat]
  have h2 : destinationOf "paris.txt.txt" = "Paris" := by
    unfold destinationOf
    rw [h1]
    decide
  exact ⟨h2, by decide, by rw [h2]; decide⟩

/-- C7 (amended): the destination identifier removes every occurrence of
`.txt` from the filename and title-cases the remainder; for a filename whose
base name contains no interior `.txt` this coincides with removing the
extension, and the identifier is a function of the filename alone. -/
theorem destinationOf_amended (base : String) (h : hasDotTxt base.data = false) :
    destinationOf (base ++ ".txt") = pyTitle base ∧
    destinationOf (base ++ ".txt") = specDestinationOf (base ++ ".txt") := by
  have hdata : (base ++ ".txt").data = base.data ++ txtPat := by
    rw [String.data_append]
    rfl
  have h1 : destinationOf (base ++ ".txt") = pyTitle base := by
    unfold destinationOf
    rw [hdata, replaceDotTxt_append base.data h]
  refine ⟨h1, ?_⟩
  rw [h1]
  unfold specDestinationOf
  rw [hdata]
  have hlen : (base.data ++ txtPat).length - 4 = base.data.length := by
    simp [txtPat]
  rw [hlen, List.take_left]

/-- Witness for `destinationOf_amended` at a clean base name. -/
theorem destinationOf_amended_witness :
    hasDotTxt "roma".data = false ∧
    destinationOf ("roma" ++ ".txt") = pyTitle "roma" :=
  ⟨by decide, (destinationOf_amended "roma" (by decide)).1⟩

/-- C10: `get_destination_summary` looks up the lower-cased destination plus
`.txt`; an existing readable file of at most 1000 characters is returned
whole, a longer one as exactly its first 1000 characters followed by `...`;
a read error becomes a textual error message; a missing file falls back to
semantic search via `search_by_destination`. -/
theorem destination_summary_cases (rag : RAGSystem)
    (fs : String → Option (Except String String)) (destination : String) :
    (∀ content, fs (pyLower destination ++ ".txt") = some (Except.ok content) →
      content.length ≤ 1000 →
      get_destination_summary rag fs destination = content) ∧
    (∀ content, fs (pyLower destination ++ ".txt") = some (Except.ok content) →
      content.length > 1000 →
      get_destination_summary rag fs destination = pyTake content 1000 ++ "..." ∧
      (pyTake content 1000).length = 1000) ∧
    (∀ e, fs (pyLower destination ++ ".txt") = some (Except.error e) →
      get_destination_summary rag fs destination
        = "Error leyendo información de " ++ destination ++ ": " ++ e) ∧
    (fs (pyLower destination ++ ".txt") = none →
      get_destination_summary rag fs destination
        = search_by_destination rag destination) := by
  refine ⟨fun content hf hle => ?_, fun content hf hgt => ⟨?_, ?_⟩,
    fun e hf => ?_, fun hf => ?_⟩
  · simp only [get_destination_summary, hf]
    rw [if_neg (by omega)]
  · simp [get_destination_summary, hf, hgt]
  · show (content.data.take 1000).length = 1000
    rw [List.length_take]
    have hgt' : 1000 < content.data.length := hgt
    omega
  · simp [get_destination_summary, hf]
  · simp [get_destination_summary, hf]

/-- Witness for `destination_summary_cases`: a readable short file is
returned whole, a failing read yields the error text, and a missing file
falls back to semantic search. -/
theorem destination_summary_cases_witness :
    get_destination_summary ⟨some vsEmpty, 3⟩ fsSummary "Roma"
      = "Roma es la capital de Italia." ∧
    get_destination_summary ⟨some vsEmpty, 3⟩ fsSummary "Paris"
      = "Error leyendo información de Paris: PermissionError" ∧
    get_destination_summary ⟨some vsEmpty, 3⟩ fsSummary "Tokio"
      = search_by_destination ⟨some vsEmpty, 3⟩ "Tokio" := by
  refine ⟨?_, ?_, ?_⟩
  · exact (destination_summary_cases ⟨some vsEmpty, 3⟩ fsSummary "Roma").1
      "Roma es la capital de Italia." rfl (by decide)
  · exact ((destination_summary_cases ⟨some vsEmpty, 3⟩ fsSummary "Paris").2.2.1
      "PermissionError" rfl).trans rfl
  · exact (destination_summary_cases ⟨some vsEmpty, 3⟩ fsSummary "Tokio").2.2.2
      rfl

end TravelPlanner
